import Mathlib

/-!
Verification development for `backend/setup_vector_search.py`.

The script builds three hardcoded search index definitions for MongoDB Atlas
(two vector-search indexes and one text-search index), then inspects one
sample document of the `medical_embeddings` collection to detect the real
embedding dimension and patches both vector index definitions with it.

The shallow embedding below mirrors the Python source:
  * Python dicts describing index fields become Lean structures whose
    optional keys are `Option`-valued (a Python dict may or may not carry
    `numDimensions` / `similarity` / `analyzer`).
  * The MongoDB collections are modelled as lists of documents; `find_one`
    with the filter `\x7b'_metadata': \x7b'$exists': False\x7d\x7d` becomes
    `List.find?` with the predicate "has no `_metadata` key".
  * `ast.literal_eval` (Python standard library, external to the repo) is
    modelled by `literal_eval`, covering Python literals of the kinds the
    function accepts: strings and bytes (single- or double-quoted, with
    escape sequences, r/u/b modifiers and implicit adjacency
    concatenation), ints (decimal with the leading-zero restriction,
    hexadecimal, octal, binary, numeric underscores), floats (fraction and
    exponent forms), complex literals, True/False/None, and arbitrarily
    nested tuples (parenthesized and bare top-level), lists, dicts and
    sets, with comments, bracket-sensitive newline handling, trailing
    commas, unary signs, set/dict-key hashability checks and Python-value
    key deduplication. Failure carries an error message, modelling the
    caught exception; `len` on an unsized value (the script calls
    `len(ast.literal_eval(s))`) likewise becomes a caught error. Outside
    the modelled subset (classified as parse failures) are only exotica:
    triple-quoted strings, named unicode escapes, f-strings (which
    `literal_eval` rejects too) and a few tokenizer corners.
  * The console messages of the analysis phase (dimension detected, format
    not recognized, parse error, or nothing printed) are modelled by the
    `InferenceOutcome` value returned next to the patched definitions; the
    returned artifact of `setup_vector_search_indexes` is the association
    list the Python function returns, which does not include the outcome.
-/

/-- A BSON value as far as the script distinguishes them: the analysis phase
only checks `isinstance(embedding_str, str)`; any non-string value (native
arrays included) falls into the `else` branch. -/
inductive BVal where
  | str (s : String)
  | arr (xs : List Rat)
  | other
deriving DecidableEq

/-- A MongoDB document: an ordered association of field names to values. -/
def Doc : Type := List (String × BVal)

instance : DecidableEq Doc := by
  unfold Doc
  infer_instance

def embeddingKey : String := "embedding"
def metadataKey : String := "_metadata"

/-- `sample[k]` lookup. -/
def getField (d : Doc) (k : String) : Option BVal := List.lookup k d

/-- `'k' in sample`. -/
def hasField (d : Doc) (k : String) : Bool := (getField d k).isSome

/-- One entry of a vector index `fields` list (a Python dict); optional keys
are `Option`-valued so that filter entries simply have no `numDimensions`. -/
structure FieldEntry where
  type : String
  path : String
  numDimensions : Option Nat := none
  similarity : Option String := none
deriving DecidableEq

/-- A vector-search index definition (`name`, `type`, `definition.fields`). -/
structure VectorIndexDef where
  name : String
  type : String
  fields : List FieldEntry
deriving DecidableEq

/-- One entry of the text index `mappings.fields` dict. -/
structure TextFieldSpec where
  type : String
  analyzer : Option String := none
deriving DecidableEq

/-- The text-search index definition (`mappings.dynamic`, `mappings.fields`,
the latter an insertion-ordered dict). -/
structure TextIndexDef where
  name : String
  type : String
  dynamic : Bool
  fields : List (String × TextFieldSpec)
deriving DecidableEq

/-- `medical_embeddings_index` literal from the source (lines 32-53). -/
def medical_embeddings_index : VectorIndexDef :=
  { name := "vector_index_medical"
  , type := "vectorSearch"
  , fields :=
      [ { type := "vector", path := "embedding_vector"
        , numDimensions := some 384, similarity := some "cosine" }
      , { type := "filter", path := "medical_specialty" }
      , { type := "filter", path := "confidence_score" } ] }

/-- `godzilla_index` literal from the source (lines 65-90). -/
def godzilla_index : VectorIndexDef :=
  { name := "vector_index_godzilla"
  , type := "vectorSearch"
  , fields :=
      [ { type := "vector", path := "text_embedding"
        , numDimensions := some 384, similarity := some "cosine" }
      , { type := "filter", path := "medical_specialty" }
      , { type := "filter", path := "clinical_relevance_score" }
      , { type := "filter", path := "age_groups" } ] }

/-- `drug_search_index` literal from the source (lines 102-130). -/
def drug_search_index : TextIndexDef :=
  { name := "drug_search_index"
  , type := "search"
  , dynamic := false
  , fields :=
      [ ("drug_name", { type := "string", analyzer := some "lucene.standard" })
      , ("generic_name", { type := "string", analyzer := some "lucene.standard" })
      , ("indication", { type := "string", analyzer := some "lucene.standard" })
      , ("age_group", { type := "string" })
      , ("route", { type := "string" }) ] }

/-- Decimal digits to a natural number. -/
def digitsToNat (cs : List Char) : Nat :=
  cs.foldl (fun a c => a * 10 + (c.toNat - 48)) 0

/-- The message of the exception raised on a malformed literal. -/
def malformedMsg (s : String) : String := "malformed node or string: " ++ s

/-- A Python value as produced by `ast.literal_eval`. -/
inductive PyVal where
  | num (q : Rat)
  | complexVal (re im : Rat)
  | str (cs : List Nat)
  | bytesVal (bs : List Nat)
  | bool (b : Bool)
  | noneVal
  | tuple (xs : List PyVal)
  | list (xs : List PyVal)
  | dict (es : List (PyVal × PyVal))
  | set (xs : List PyVal)

def boolRat (b : Bool) : Rat := if b then 1 else 0

mutual

/-- Python equality, on the hashable values it is applied to. -/
def pyEq : PyVal → PyVal → Bool
  | PyVal.num a, PyVal.num b => a == b
  | PyVal.num a, PyVal.bool b => a == boolRat b
  | PyVal.bool a, PyVal.num b => boolRat a == b
  | PyVal.num a, PyVal.complexVal re im => im == 0 && a == re
  | PyVal.complexVal re im, PyVal.num b => im == 0 && re == b
  | PyVal.bool a, PyVal.complexVal re im => im == 0 && boolRat a == re
  | PyVal.complexVal re im, PyVal.bool b => im == 0 && re == boolRat b
  | PyVal.complexVal a b, PyVal.complexVal c d => a == c && b == d
  | PyVal.bool a, PyVal.bool b => a == b
  | PyVal.noneVal, PyVal.noneVal => true
  | PyVal.str a, PyVal.str b => a == b
  | PyVal.bytesVal a, PyVal.bytesVal b => a == b
  | PyVal.tuple a, PyVal.tuple b => pyEqList a b
  | _, _ => false

def pyEqList : List PyVal → List PyVal → Bool
  | [], [] => true
  | x :: xs, y :: ys => pyEq x y && pyEqList xs ys
  | _, _ => false

end

mutual

/-- Whether a value may be a set element or dict key. -/
def isHashable : PyVal → Bool
  | PyVal.num _ => true
  | PyVal.complexVal _ _ => true
  | PyVal.str _ => true
  | PyVal.bytesVal _ => true
  | PyVal.bool _ => true
  | PyVal.noneVal => true
  | PyVal.tuple xs => isHashableList xs
  | PyVal.list _ => false
  | PyVal.dict _ => false
  | PyVal.set _ => false

def isHashableList : List PyVal → Bool
  | [] => true
  | x :: xs => isHashable x && isHashableList xs

end

def pySetInsert (acc : List PyVal) (x : PyVal) : List PyVal :=
  if acc.any (fun y => pyEq y x) then acc else acc ++ [x]

def pyDedup (xs : List PyVal) : List PyVal := xs.foldl pySetInsert []

def pyDictInsert (acc : List (PyVal × PyVal)) (kv : PyVal × PyVal) :
    List (PyVal × PyVal) :=
  if acc.any (fun e => pyEq e.1 kv.1) then
    acc.map (fun e => if pyEq e.1 kv.1 then (e.1, kv.2) else e)
  else acc ++ [kv]

/-- `len()`, where defined. -/
def pyLen : PyVal → Option Nat
  | PyVal.str cs => some cs.length
  | PyVal.bytesVal bs => some bs.length
  | PyVal.tuple xs => some xs.length
  | PyVal.list xs => some xs.length
  | PyVal.dict es => some es.length
  | PyVal.set xs => some xs.length
  | PyVal.num _ => Option.none
  | PyVal.complexVal _ _ => Option.none
  | PyVal.bool _ => Option.none
  | PyVal.noneVal => Option.none

inductive PErr where
  | malformed
  | unhashable

def mkSet (xs : List PyVal) : Except PErr PyVal :=
  if xs.all isHashable then Except.ok (PyVal.set (pyDedup xs))
  else Except.error PErr.unhashable

def mkDict (es : List (PyVal × PyVal)) : Except PErr PyVal :=
  if (es.map Prod.fst).all isHashable then
    Except.ok (PyVal.dict (es.foldl pyDictInsert []))
  else Except.error PErr.unhashable

/-- Skip whitespace between tokens: spaces and tabs always, newlines only
inside brackets, comments up to (not including) the newline. -/
def skipWsAux : Nat → Bool → List Char → List Char
  | _, _, [] => []
  | depth, true, c :: cs =>
      if c == '\n' then
        if 0 < depth then skipWsAux depth false cs else c :: cs
      else skipWsAux depth true cs
  | depth, false, c :: cs =>
      if c == ' ' || c == '\t' ||
          (decide (0 < depth) && (c == '\n' || c == '\r')) then
        skipWsAux depth false cs
      else if c == '#' then skipWsAux depth true cs
      else c :: cs

def skipWs (depth : Nat) (cs : List Char) : List Char := skipWsAux depth false cs

/-- Only whitespace and comments remain. -/
def isAtEnd (cs : List Char) : Bool := (skipWsAux 1 false cs).isEmpty

def isIdentStart (c : Char) : Bool := c.isAlpha || c == '_'
def isIdentChar (c : Char) : Bool := c.isAlphanum || c == '_'
def isDigitOrUnderscore (c : Char) : Bool := c.isDigit || c == '_'
def isOctDigit (c : Char) : Bool := '0' ≤ c && c ≤ '7'

def hexVal (c : Char) : Option Nat :=
  if c.isDigit then some (c.toNat - 48)
  else if 'a' ≤ c && c ≤ 'f' then some (c.toNat - 87)
  else if 'A' ≤ c && c ≤ 'F' then some (c.toNat - 55)
  else Option.none

def radixOf (c : Char) : Option Nat :=
  if c == 'x' || c == 'X' then some 16
  else if c == 'o' || c == 'O' then some 8
  else if c == 'b' || c == 'B' then some 2
  else Option.none

/-- Validate numeric underscores and drop them; `leadingOk` is for digits
directly after a radix marker, where a leading underscore is allowed. -/
def stripUnderscores (leadingOk : Bool) (cs : List Char) : Option (List Char) :=
  if !leadingOk && cs.head? == some '_' then Option.none
  else if cs.getLast? == some '_' then Option.none
  else if (cs.zip (cs.drop 1)).any (fun p => p.1 == '_' && p.2 == '_') then
    Option.none
  else some (cs.filter (fun c => !(c == '_')))

def natInRadix (radix : Nat) (cs : List Char) : Option Nat :=
  if cs.isEmpty then Option.none
  else if cs.all (fun c =>
      match hexVal c with
      | some v => decide (v < radix)
      | Option.none => false) then
    some (cs.foldl (fun a c => a * radix + ((hexVal c).getD 0)) 0)
  else Option.none

/-- A decimal int or float token (no sign, no imaginary suffix): Python's
leading-zero restriction on ints, underscores, fraction and exponent. -/
def parseDecimalTok (cs : List Char) : Except PErr (Rat × List Char) :=
  let ip := cs.takeWhile isDigitOrUnderscore
  let rest1 := cs.drop ip.length
  let hasDot := rest1.head? == some '.'
  let afterDot := if hasDot then rest1.drop 1 else rest1
  let fp := if hasDot then afterDot.takeWhile isDigitOrUnderscore else []
  let rest2 := if hasDot then afterDot.drop fp.length else rest1
  let hasExp := rest2.head? == some 'e' || rest2.head? == some 'E'
  let afterE := rest2.drop 1
  let expSigned := afterE.head? == some '+' || afterE.head? == some '-'
  let expNeg := afterE.head? == some '-'
  let expBody := if expSigned then afterE.drop 1 else afterE
  let ep := if hasExp then expBody.takeWhile isDigitOrUnderscore else []
  let rest3 := if hasExp then expBody.drop ep.length else rest2
  match stripUnderscores false ip, stripUnderscores false fp,
      stripUnderscores false ep with
  | some ipd, some fpd, some epd =>
    if !hasDot && !hasExp then
      if ipd.isEmpty then Except.error PErr.malformed
      else if ipd.head? == some '0' && ipd.any (fun c => !(c == '0')) then
        Except.error PErr.malformed
      else Except.ok ((digitsToNat ipd : Rat), rest1)
    else if ipd.length + fpd.length == 0 then Except.error PErr.malformed
    else if hasExp && epd.isEmpty then Except.error PErr.malformed
    else
      let base : Rat :=
        (digitsToNat ipd : Rat) + (digitsToNat fpd : Rat) / ((10 : Rat) ^ fpd.length)
      let v : Rat :=
        if hasExp then
          if expNeg then base / ((10 : Rat) ^ digitsToNat epd)
          else base * ((10 : Rat) ^ digitsToNat epd)
        else base
      Except.ok (v, rest3)
  | _, _, _ => Except.error PErr.malformed

/-- A number token: radix literals (0x/0o/0b) or decimal. -/
def parseNumberTok (cs : List Char) : Except PErr (Rat × List Char) :=
  match cs with
  | '0' :: c2 :: rest2 =>
    (match radixOf c2 with
     | some radix =>
        let ds := rest2.takeWhile (fun c => (hexVal c).isSome || c == '_')
        let rest3 := rest2.drop ds.length
        (match stripUnderscores true ds with
         | some dsd =>
            (match natInRadix radix dsd with
             | some v => Except.ok ((v : Rat), rest3)
             | Option.none => Except.error PErr.malformed)
         | Option.none => Except.error PErr.malformed)
     | Option.none => parseDecimalTok cs)
  | _ => parseDecimalTok cs

def strQuote (c : Char) : Bool := c == '\'' || c == '"'

def takeHex (n : Nat) (cs : List Char) : Option (Nat × List Char) :=
  let ds := cs.take n
  if ds.length == n && ds.all (fun c => (hexVal c).isSome) then
    some (ds.foldl (fun a c => a * 16 + ((hexVal c).getD 0)) 0, cs.drop n)
  else Option.none

/-- One escape sequence after the backslash; `Option.none` models the
SyntaxError of a truncated or unsupported escape. Unknown escapes keep the
backslash, as in Python. -/
def escSeq (isBytes : Bool) (c2 : Char) (rest2 : List Char) :
    Option (List Nat × List Char) :=
  if c2 == '\n' then some ([], rest2)
  else if c2 == '\\' then some ([92], rest2)
  else if c2 == '\'' then some ([39], rest2)
  else if c2 == '"' then some ([34], rest2)
  else if c2 == 'n' then some ([10], rest2)
  else if c2 == 't' then some ([9], rest2)
  else if c2 == 'r' then some ([13], rest2)
  else if c2 == 'a' then some ([7], rest2)
  else if c2 == 'b' then some ([8], rest2)
  else if c2 == 'f' then some ([12], rest2)
  else if c2 == 'v' then some ([11], rest2)
  else if isOctDigit c2 then
    let more := (rest2.takeWhile isOctDigit).take 2
    some ([(c2 :: more).foldl (fun a c => a * 8 + (c.toNat - 48)) 0],
      rest2.drop more.length)
  else if c2 == 'x' then
    (takeHex 2 rest2).map (fun p => ([p.1], p.2))
  else if c2 == 'u' && !isBytes then
    (takeHex 4 rest2).map (fun p => ([p.1], p.2))
  else if c2 == 'U' && !isBytes then
    match takeHex 8 rest2 with
    | some (v, r) => if decide (v ≤ 1114111) then some ([v], r) else Option.none
    | Option.none => Option.none
  else if c2 == 'N' && !isBytes then Option.none
  else some ([92, c2.toNat], rest2)

/-- Body of a string or bytes literal after the opening quote, up to and
including the closing quote; yields the codepoints. -/
def parseStrBody (raw isBytes : Bool) (q : Char) :
    Nat → List Char → Except PErr (List Nat × List Char)
  | 0, _ => Except.error PErr.malformed
  | Nat.succ fuel, cs =>
    match cs with
    | [] => Except.error PErr.malformed
    | c :: rest =>
      if c == q then Except.ok ([], rest)
      else if c == '\n' then Except.error PErr.malformed
      else if isBytes && decide (127 < c.toNat) then Except.error PErr.malformed
      else if c == '\\' then
        match rest with
        | [] => Except.error PErr.malformed
        | c2 :: rest2 =>
          if raw then
            (parseStrBody raw isBytes q fuel rest2).map
              (fun r => (92 :: c2.toNat :: r.1, r.2))
          else
            match escSeq isBytes c2 rest2 with
            | some (out, rest3) =>
                (parseStrBody raw isBytes q fuel rest3).map
                  (fun r => (out ++ r.1, r.2))
            | Option.none => Except.error PErr.malformed
      else
        (parseStrBody raw isBytes q fuel rest).map
          (fun r => (c.toNat :: r.1, r.2))

/-- Recognized string-literal modifiers: r, u, b, rb, br (any case). -/
def strFlags (ident : List Char) : Option (Bool × Bool) :=
  match ident.map Char.toLower with
  | ['r'] => some (true, false)
  | ['u'] => some (false, false)
  | ['b'] => some (false, true)
  | ['r', 'b'] => some (true, true)
  | ['b', 'r'] => some (true, true)
  | _ => Option.none

/-- Does `cs` begin a string or bytes literal? Returns (raw, bytes, quote,
rest after the quote). -/
def strStart (cs : List Char) : Option (Bool × Bool × Char × List Char) :=
  match cs with
  | [] => Option.none
  | c :: rest =>
    if strQuote c then some (false, false, c, rest)
    else if isIdentStart c then
      let ident := (c :: rest).takeWhile isIdentChar
      let r2 := (c :: rest).drop ident.length
      match strFlags ident, r2 with
      | some (raw, bts), q :: r3 =>
          if strQuote q then some (raw, bts, q, r3) else Option.none
      | _, _ => Option.none
    else Option.none

/-- Implicit concatenation of adjacent literals of the same kind. -/
def parseStrChainAux :
    Nat → Nat → Bool → List Nat → List Char → Except PErr (List Nat × List Char)
  | 0, _, _, _, _ => Except.error PErr.malformed
  | Nat.succ fuel, depth, isBytes, acc, cs =>
    match strStart (skipWs depth cs) with
    | some (raw, bts, q, r) =>
      if bts == isBytes then
        match parseStrBody raw bts q fuel r with
        | Except.ok (s1, r2) => parseStrChainAux fuel depth isBytes (acc ++ s1) r2
        | Except.error e => Except.error e
      else Except.error PErr.malformed
    | Option.none => Except.ok (acc, cs)

def parseStrVal (fuel depth : Nat) (cs : List Char) :
    Except PErr (PyVal × List Char) :=
  match strStart cs with
  | some (raw, bts, q, r) =>
    match parseStrBody raw bts q fuel r with
    | Except.ok (s1, r2) =>
      match parseStrChainAux fuel depth bts s1 r2 with
      | Except.ok (s, r3) =>
          Except.ok ((if bts then PyVal.bytesVal s else PyVal.str s), r3)
      | Except.error e => Except.error e
    | Except.error e => Except.error e
  | Option.none => Except.error PErr.malformed

/-- An unsigned numeric operand: a number token, possibly with an imaginary
suffix, possibly parenthesized. Returns (isImaginary, value). -/
def parseNumOperand : Nat → Nat → List Char → Except PErr ((Bool × Rat) × List Char)
  | 0, _, _ => Except.error PErr.malformed
  | Nat.succ fuel, depth, cs =>
    match skipWs depth cs with
    | '(' :: r =>
      (match parseNumOperand fuel (depth + 1) r with
       | Except.ok (v, r2) =>
         (match skipWs (depth + 1) r2 with
          | ')' :: r3 => Except.ok (v, r3)
          | _ => Except.error PErr.malformed)
       | Except.error e => Except.error e)
    | cs2 =>
      match parseNumberTok cs2 with
      | Except.ok (q, r) =>
        (match r with
         | 'j' :: r2 => Except.ok ((true, q), r2)
         | 'J' :: r2 => Except.ok ((true, q), r2)
         | _ => Except.ok ((false, q), r))
      | Except.error e => Except.error e

/-- A numeric expression: optional sign, an operand, and possibly a real
plus-or-minus imaginary combination into a complex literal. -/
def parseNumExpr : Nat → Nat → List Char → Except PErr (PyVal × List Char)
  | 0, _, _ => Except.error PErr.malformed
  | Nat.succ fuel, depth, cs =>
    let signAndRest :=
      match skipWs depth cs with
      | '-' :: r => (true, r)
      | '+' :: r => (false, r)
      | r => (false, r)
    match parseNumOperand fuel depth signAndRest.2 with
    | Except.error e => Except.error e
    | Except.ok ((isImag, q0), r1) =>
      let q := if signAndRest.1 then -q0 else q0
      if isImag then Except.ok (PyVal.complexVal 0 q, r1)
      else
        match skipWs depth r1 with
        | c :: r2 =>
          if c == '+' || c == '-' then
            match parseNumOperand fuel depth r2 with
            | Except.ok ((true, q2), r3) =>
                Except.ok (PyVal.complexVal q (if c == '-' then -q2 else q2), r3)
            | _ => Except.ok (PyVal.num q, r1)
          else Except.ok (PyVal.num q, r1)
        | [] => Except.ok (PyVal.num q, r1)

def trueLit : String := "True"
def falseLit : String := "False"
def noneLit : String := "None"

mutual

/-- One Python literal expression. -/
def parseVal : Nat → Nat → List Char → Except PErr (PyVal × List Char)
  | 0, _, _ => Except.error PErr.malformed
  | Nat.succ fuel, depth, cs0 =>
    match skipWs depth cs0 with
    | [] => Except.error PErr.malformed
    | c :: rest =>
      if c == '[' then
        match parseItems fuel (depth + 1) ']' rest with
        | Except.ok (xs, r) => Except.ok (PyVal.list xs, r)
        | Except.error e => Except.error e
      else if c == '(' then
        match skipWs (depth + 1) rest with
        | ')' :: r2 => Except.ok (PyVal.tuple [], r2)
        | cs1 =>
          match parseVal fuel (depth + 1) cs1 with
          | Except.error e => Except.error e
          | Except.ok (v, r2) =>
            match skipWs (depth + 1) r2 with
            | ')' :: r3 => Except.ok (v, r3)
            | ',' :: r3 =>
              (match parseItems fuel (depth + 1) ')' r3 with
               | Except.ok (vs, r4) => Except.ok (PyVal.tuple (v :: vs), r4)
               | Except.error e => Except.error e)
            | _ => Except.error PErr.malformed
      else if c == '{' then
        match skipWs (depth + 1) rest with
        | '}' :: r2 => Except.ok (PyVal.dict [], r2)
        | cs1 =>
          match parseVal fuel (depth + 1) cs1 with
          | Except.error e => Except.error e
          | Except.ok (k, r2) =>
            match skipWs (depth + 1) r2 with
            | ':' :: r3 =>
              (match parseVal fuel (depth + 1) r3 with
               | Except.error e => Except.error e
               | Except.ok (v1, r4) =>
                 match skipWs (depth + 1) r4 with
                 | '}' :: r5 =>
                   (match mkDict [(k, v1)] with
                    | Except.ok d => Except.ok (d, r5)
                    | Except.error e => Except.error e)
                 | ',' :: r5 =>
                   (match parseDictRest fuel (depth + 1) r5 with
                    | Except.ok (es, r6) =>
                      (match mkDict ((k, v1) :: es) with
                       | Except.ok d => Except.ok (d, r6)
                       | Except.error e => Except.error e)
                    | Except.error e => Except.error e)
                 | _ => Except.error PErr.malformed)
            | '}' :: r3 =>
              (match mkSet [k] with
               | Except.ok s => Except.ok (s, r3)
               | Except.error e => Except.error e)
            | ',' :: r3 =>
              (match parseItems fuel (depth + 1) '}' r3 with
               | Except.ok (xs, r4) =>
                 (match mkSet (k :: xs) with
                  | Except.ok s => Except.ok (s, r4)
                  | Except.error e => Except.error e)
               | Except.error e => Except.error e)
            | _ => Except.error PErr.malformed
      else if strQuote c || (isIdentStart c && (strStart (c :: rest)).isSome) then
        parseStrVal fuel depth (c :: rest)
      else if c.isDigit || c == '.' || c == '+' || c == '-' then
        parseNumExpr fuel depth (c :: rest)
      else if isIdentStart c then
        let ident := (c :: rest).takeWhile isIdentChar
        let r2 := (c :: rest).drop ident.length
        if String.mk ident == trueLit then Except.ok (PyVal.bool true, r2)
        else if String.mk ident == falseLit then Except.ok (PyVal.bool false, r2)
        else if String.mk ident == noneLit then Except.ok (PyVal.noneVal, r2)
        else Except.error PErr.malformed
      else Except.error PErr.malformed

/-- Comma-separated items up to a closing bracket, trailing comma allowed. -/
def parseItems : Nat → Nat → Char → List Char → Except PErr (List PyVal × List Char)
  | 0, _, _, _ => Except.error PErr.malformed
  | Nat.succ fuel, depth, close, cs =>
    match skipWs depth cs with
    | [] => Except.error PErr.malformed
    | c :: r =>
      if c == close then Except.ok ([], r)
      else
        match parseVal fuel depth (c :: r) with
        | Except.error e => Except.error e
        | Except.ok (v, r2) =>
          match skipWs depth r2 with
          | ',' :: r3 =>
            (match parseItems fuel depth close r3 with
             | Except.ok (vs, r4) => Except.ok (v :: vs, r4)
             | Except.error e => Except.error e)
          | c2 :: r3 =>
              if c2 == close then Except.ok ([v], r3)
              else Except.error PErr.malformed
          | [] => Except.error PErr.malformed

/-- Remaining key-value entries of a dict, trailing comma allowed. -/
def parseDictRest :
    Nat → Nat → List Char → Except PErr (List (PyVal × PyVal) × List Char)
  | 0, _, _ => Except.error PErr.malformed
  | Nat.succ fuel, depth, cs =>
    match skipWs depth cs with
    | '}' :: r => Except.ok ([], r)
    | cs1 =>
      match parseVal fuel depth cs1 with
      | Except.error e => Except.error e
      | Except.ok (k, r2) =>
        match skipWs depth r2 with
        | ':' :: r3 =>
          (match parseVal fuel depth r3 with
           | Except.error e => Except.error e
           | Except.ok (v1, r4) =>
             match skipWs depth r4 with
             | '}' :: r5 => Except.ok ([(k, v1)], r5)
             | ',' :: r5 =>
               (match parseDictRest fuel depth r5 with
                | Except.ok (es, r6) => Except.ok ((k, v1) :: es, r6)
                | Except.error e => Except.error e)
             | _ => Except.error PErr.malformed)
        | _ => Except.error PErr.malformed

/-- Remaining elements of a bare top-level tuple. -/
def parseBareTupleRest : Nat → List Char → Except PErr (List PyVal × List Char)
  | 0, _ => Except.error PErr.malformed
  | Nat.succ fuel, cs =>
    if isAtEnd cs then Except.ok ([], cs)
    else
      match parseVal fuel 0 cs with
      | Except.error e => Except.error e
      | Except.ok (v, r) =>
        match skipWs 0 r with
        | ',' :: r2 =>
          (match parseBareTupleRest fuel r2 with
           | Except.ok (vs, r3) => Except.ok (v :: vs, r3)
           | Except.error e => Except.error e)
        | r2 =>
            if isAtEnd r2 then Except.ok ([v], r2)
            else Except.error PErr.malformed

end

/-- A full top-level literal, including bare tuples. -/
def parseTop (fuel : Nat) (cs : List Char) : Except PErr PyVal :=
  match parseVal fuel 0 cs with
  | Except.error e => Except.error e
  | Except.ok (v, r1) =>
    match skipWs 0 r1 with
    | ',' :: r2 =>
      (match parseBareTupleRest fuel r2 with
       | Except.ok (vs, r3) =>
           if isAtEnd r3 then Except.ok (PyVal.tuple (v :: vs))
           else Except.error PErr.malformed
       | Except.error e => Except.error e)
    | r2 => if isAtEnd r2 then Except.ok v else Except.error PErr.malformed

def unhashableMsg : String := "unhashable type"

def literal_eval (s : String) : Except String PyVal :=
  let cs := s.toList.dropWhile Char.isWhitespace
  match parseTop (2 * cs.length + 16) cs with
  | Except.ok v => Except.ok v
  | Except.error PErr.malformed => Except.error (malformedMsg s)
  | Except.error PErr.unhashable => Except.error unhashableMsg

def lenFailMsg : String := "object has no len()"

def inferFromStr (s : String) : Except String Nat :=
  match literal_eval s with
  | Except.error e => Except.error e
  | Except.ok v =>
    match pyLen v with
    | some d => Except.ok d
    | Option.none => Except.error lenFailMsg

/-- Result of the "ANALYZING EXISTING EMBEDDINGS" phase, as observable on the
console: nothing printed (sample absent or without an `embedding` key), a
detected dimension, the format-not-recognized warning, or the caught
exception (a parse failure, or `len()` on an unsized value) with its
message. -/
inductive InferenceOutcome where
  | skipped
  | applied (dim : Nat)
  | formatNotRecognized
  | parseFailure (cause : String)
deriving DecidableEq

/-- Line 191/192 of the source: `idx['definition']['fields'][0]['numDimensions']
= dimension` — overwrite (or add) the `numDimensions` key of field 0. The
concrete definitions always have a non-empty `fields` list. -/
def setNumDimensions0 (d : VectorIndexDef) (dim : Nat) : VectorIndexDef :=
  match d.fields with
  | [] => d
  | f :: rest => { d with fields := { f with numDimensions := some dim } :: rest }

/-- Lines 177-198 of the source: given the fetched sample (or `none`), patch
the two vector index definitions and report the console outcome. -/
def analyzeEmbeddings (sample : Option Doc)
    (medical godzilla : VectorIndexDef) :
    VectorIndexDef × VectorIndexDef × InferenceOutcome :=
  match sample with
  | none => (medical, godzilla, InferenceOutcome.skipped)
  | some doc =>
      match getField doc embeddingKey with
      | none => (medical, godzilla, InferenceOutcome.skipped)
      | some (BVal.str s) =>
          match inferFromStr s with
          | Except.ok d =>
              (setNumDimensions0 medical d,
               setNumDimensions0 godzilla d,
               InferenceOutcome.applied d)
          | Except.error e => (medical, godzilla, InferenceOutcome.parseFailure e)
      | some _ => (medical, godzilla, InferenceOutcome.formatNotRecognized)

/-- The database, as far as the script addresses it: the three collections it
names. Only `medical_embeddings` is ever read. -/
structure Db where
  medical_embeddings : List Doc
  godzilla_medical_dataset : List Doc
  pediatric_drug_dosages : List Doc

/-- Line 175: `find_one` with filter `_metadata` absent — the first document
of the collection that carries no `_metadata` key. -/
def find_one_no_metadata (coll : List Doc) : Option Doc :=
  coll.find? (fun d => ! hasField d metadataKey)

/-- Either kind of index definition, for the heterogeneous return dict. -/
inductive IndexDef where
  | vec (v : VectorIndexDef)
  | txt (t : TextIndexDef)
deriving DecidableEq

def medicalEntryKey : String := "medical_embeddings_index"
def godzillaEntryKey : String := "godzilla_index"
def drugEntryKey : String := "drug_search_index"

/-- The whole `setup_vector_search_indexes` run: build the three literal
definitions, fetch one sample from `medical_embeddings`, run the analysis
phase, and return the dict of final definitions (lines 213-217). -/
def setup_vector_search_indexes (db : Db) : List (String × IndexDef) :=
  let sample := find_one_no_metadata db.medical_embeddings
  let r := analyzeEmbeddings sample medical_embeddings_index godzilla_index
  [ (medicalEntryKey, IndexDef.vec r.1)
  , (godzillaEntryKey, IndexDef.vec r.2.1)
  , (drugEntryKey, IndexDef.txt drug_search_index) ]

/-- The console outcome of the analysis phase of a run. -/
def runOutcome (db : Db) : InferenceOutcome :=
  (analyzeEmbeddings (find_one_no_metadata db.medical_embeddings)
      medical_embeddings_index godzilla_index).2.2

/-- `numDimensions` of field 0 of a definition. -/
def dim0 (d : VectorIndexDef) : Option Nat :=
  match d.fields with
  | [] => none
  | f :: _ => f.numDimensions

/-- `path` of field 0 of a definition. -/
def path0 (d : VectorIndexDef) : Option String :=
  match d.fields with
  | [] => none
  | f :: _ => some f.path

/-- Parsed length of a stored embedding string, if the parse-and-measure
step succeeds at all (the `dimension = len(embedding_list)` of line 185). -/
def parsedLen (s : String) : Option Nat := (inferFromStr s).toOption

def embedding_vectorPath : String := "embedding_vector"
def text_embeddingPath : String := "text_embedding"
def cosineStr : String := "cosine"

/- Concrete inputs used by the counterexamples and witnesses below. -/

def vec5Str : String := "[1, 2, 3, 4, 5]"
def vec7Str : String := "[1, 2, 3, 4, 5, 6, 7]"
def notVecStr : String := "not-a-vector"
def emptyVecStr : String := "[]"
def oneStr : String := "1"

/-- The Python string literal `"abc"`: a serialized value that is not a
numeric sequence, yet parses and has a length. -/
def abcLitStr : String := "\"abc\""

/-- The literal `3`: parses to an unsized value, so `len` raises. -/
def intLitStr : String := "3"

/-- Comma-join a list of strings. -/
def joinComma (xs : List String) : String :=
  match xs with
  | [] => ""
  | x :: rest => rest.foldl (fun a s => a ++ ", " ++ s) x

/-- A textual embedding of dimension 384, the placeholder value. -/
def vec384Str : String := "[" ++ joinComma (List.replicate 384 oneStr) ++ "]"

/-- A native numeric sequence of length 3 (the value `[0.1, 0.2, 0.3]`). -/
def nativeSeq3 : List Rat := [1/10, 2/10, 3/10]

def docMedical5 : Doc := [(embeddingKey, BVal.str vec5Str)]
def docGodzilla7 : Doc := [(embeddingKey, BVal.str vec7Str)]
def docNotVec : Doc := [(embeddingKey, BVal.str notVecStr)]
def docEmptyVec : Doc := [(embeddingKey, BVal.str emptyVecStr)]
def docStrAbc : Doc := [(embeddingKey, BVal.str abcLitStr)]
def docIntLit : Doc := [(embeddingKey, BVal.str intLitStr)]
def docNative3 : Doc := [(embeddingKey, BVal.arr nativeSeq3)]
def docMedical384 : Doc := [(embeddingKey, BVal.str vec384Str)]

/-- A document with no `embedding` key at all. -/
def docNoEmb : Doc := [(metadataKey, BVal.other)]

/-- A document storing its vector only under the declared index path
`embedding_vector`, with no `embedding` key. -/
def docDeclaredOnly : Doc := [(embedding_vectorPath, BVal.arr nativeSeq3)]

/-- Medical sample of dimension 5, godzilla sample of dimension 7. -/
def exDb1 : Db :=
  { medical_embeddings := [docMedical5]
  , godzilla_medical_dataset := [docGodzilla7]
  , pediatric_drug_dosages := [] }

/-- No qualifying sample anywhere. -/
def dbNoSample : Db :=
  { medical_embeddings := [], godzilla_medical_dataset := []
  , pediatric_drug_dosages := [] }

/-- A medical sample whose embedding really has the placeholder dimension. -/
def db384 : Db :=
  { medical_embeddings := [docMedical384], godzilla_medical_dataset := []
  , pediatric_drug_dosages := [] }

/-- Overwriting `numDimensions` of field 0 twice with the same value is the
same as doing it once. -/
theorem setNumDimensions0_idem (d : VectorIndexDef) (n : Nat) :
    setNumDimensions0 (setNumDimensions0 d n) n = setNumDimensions0 d n := by
  obtain ⟨nm, ty, fs⟩ := d
  cases fs <;> rfl

/-- Claim C1 counterexample: the godzilla collection's own sample has
dimension 7, yet the run gives the godzilla index dimension 5 — the length of
the medical collection's sample — so the dimension applied to a vector index
is not inferred from a sample of the collection that index targets, and no
sample is drawn from the godzilla collection at all. -/
theorem C1_counterexample :
    List.lookup godzillaEntryKey (setup_vector_search_indexes exDb1) =
      some (IndexDef.vec (setNumDimensions0 godzilla_index 5))
  ∧ dim0 (setNumDimensions0 godzilla_index 5) = some 5
  ∧ exDb1.godzilla_medical_dataset = [docGodzilla7]
  ∧ getField docGodzilla7 embeddingKey = some (BVal.str vec7Str)
  ∧ parsedLen vec7Str = some 7 := by decide

/-- Claim C1 amended: exactly one sample is drawn in total, from the
`medical_embeddings` collection only (filtered to exclude documents carrying
the `_metadata` marker); the godzilla and drug collections are never read,
and the single inferred dimension is applied to both vector index
definitions. -/
theorem C1_amended :
    (∀ db g p,
      setup_vector_search_indexes
          { db with godzilla_medical_dataset := g, pediatric_drug_dosages := p } =
        setup_vector_search_indexes db)
  ∧ (∀ coll d, find_one_no_metadata coll = some d → getField d metadataKey = none)
  ∧ (∀ s dim,
      (analyzeEmbeddings s medical_embeddings_index godzilla_index).2.2 =
          InferenceOutcome.applied dim →
        (analyzeEmbeddings s medical_embeddings_index godzilla_index).1 =
            setNumDimensions0 medical_embeddings_index dim
        ∧ (analyzeEmbeddings s medical_embeddings_index godzilla_index).2.1 =
            setNumDimensions0 godzilla_index dim) := by
  refine ⟨fun db g p => rfl, ?_, ?_⟩
  · intro coll d h
    have hp := List.find?_some h
    cases hg : getField d metadataKey with
    | none => rfl
    | some v => simp [hasField, hg] at hp
  · intro s dim h
    cases s with
    | none => simp [analyzeEmbeddings] at h
    | some doc =>
      cases hg : getField doc embeddingKey with
      | none => simp [analyzeEmbeddings, hg] at h
      | some v =>
        cases v with
        | str s' =>
          cases hl : inferFromStr s' with
          | ok d =>
            simp [analyzeEmbeddings, hg, hl] at h ⊢
            rw [h]
            exact ⟨rfl, rfl⟩
          | error e => simp [analyzeEmbeddings, hg, hl] at h
        | arr xs => simp [analyzeEmbeddings, hg] at h
        | other => simp [analyzeEmbeddings, hg] at h

/-- Claim C1 amended, instantiated: emptying the godzilla and drug
collections does not change the run, the drawn sample has no `_metadata`
marker, and the applied dimension 5 lands on the medical definition. -/
theorem C1_amended_witness :
    setup_vector_search_indexes
        { exDb1 with godzilla_medical_dataset := [], pediatric_drug_dosages := [] } =
      setup_vector_search_indexes exDb1
  ∧ getField docMedical5 metadataKey = none
  ∧ (analyzeEmbeddings (some docMedical5) medical_embeddings_index godzilla_index).1 =
      setNumDimensions0 medical_embeddings_index 5 :=
  ⟨C1_amended.1 exDb1 [] [],
   C1_amended.2.1 [docMedical5] docMedical5 (by decide),
   (C1_amended.2.2 (some docMedical5) 5 (by decide)).1⟩

/-- Claim C2 counterexample: the stored embedding `"abc"` (a Python string
literal) is a serialized textual value that is not a sequence of numbers,
yet the code does not soft-fail on it: `ast.literal_eval` succeeds with the
string `abc`, `len` gives 3, and 3 is written into both definitions,
overwriting the placeholder 384. -/
theorem C2_counterexample :
    getField docStrAbc embeddingKey = some (BVal.str abcLitStr)
  ∧ literal_eval abcLitStr = Except.ok (PyVal.str [97, 98, 99])
  ∧ inferFromStr abcLitStr = Except.ok 3
  ∧ analyzeEmbeddings (some docStrAbc) medical_embeddings_index godzilla_index =
      (setNumDimensions0 medical_embeddings_index 3,
        setNumDimensions0 godzilla_index 3, InferenceOutcome.applied 3)
  ∧ dim0 (setNumDimensions0 medical_embeddings_index 3) = some 3 :=
  ⟨rfl, rfl, rfl, rfl, rfl⟩

/-- Claim C2 amended: for a sample whose stored embedding is a string on
which the parse-and-measure step raises — the text fails to parse as a
Python literal, or parses to a value with no length — the failure is soft:
the caught exception's cause is reported, the analysis returns normally,
and both definitions keep the placeholder 384. But a string parsing to any
sized value, numeric sequence or not (a string, tuple, dict or set
literal), instead has its length applied to both definitions. -/
theorem C2_amended :
    (∀ sample s e, getField sample embeddingKey = some (BVal.str s) →
      inferFromStr s = Except.error e →
      analyzeEmbeddings (some sample) medical_embeddings_index godzilla_index =
        (medical_embeddings_index, godzilla_index, InferenceOutcome.parseFailure e)
      ∧ dim0 medical_embeddings_index = some 384
      ∧ dim0 godzilla_index = some 384)
  ∧ (∀ sample s d, getField sample embeddingKey = some (BVal.str s) →
      inferFromStr s = Except.ok d →
      analyzeEmbeddings (some sample) medical_embeddings_index godzilla_index =
        (setNumDimensions0 medical_embeddings_index d,
          setNumDimensions0 godzilla_index d, InferenceOutcome.applied d)) := by
  constructor
  · intro sample s e hs he
    refine ⟨?_, rfl, rfl⟩
    simp [analyzeEmbeddings, hs, he]
  · intro sample s d hs hd
    simp [analyzeEmbeddings, hs, hd]

/-- Claim C2 amended, instantiated on the spec's `"not-a-vector"` (parse
failure), on the literal `3` (no length), and on the string literal
`"abc"` (sized, dimension 3 applied). -/
theorem C2_amended_witness :
    inferFromStr notVecStr = Except.error (malformedMsg notVecStr)
  ∧ inferFromStr intLitStr = Except.error lenFailMsg
  ∧ analyzeEmbeddings (some docNotVec) medical_embeddings_index godzilla_index =
      (medical_embeddings_index, godzilla_index,
        InferenceOutcome.parseFailure (malformedMsg notVecStr))
  ∧ analyzeEmbeddings (some docIntLit) medical_embeddings_index godzilla_index =
      (medical_embeddings_index, godzilla_index,
        InferenceOutcome.parseFailure lenFailMsg)
  ∧ analyzeEmbeddings (some docStrAbc) medical_embeddings_index godzilla_index =
      (setNumDimensions0 medical_embeddings_index 3,
        setNumDimensions0 godzilla_index 3, InferenceOutcome.applied 3) :=
  ⟨by rfl, by rfl,
   (C2_amended.1 docNotVec notVecStr (malformedMsg notVecStr) (by rfl) (by rfl)).1,
   (C2_amended.1 docIntLit intLitStr lenFailMsg (by rfl) (by rfl)).1,
   C2_amended.2 docStrAbc abcLitStr 3 (by rfl) (by rfl)⟩

/-- Claim C3 counterexample: on a sample without the `embedding` key the run
takes the silent skip branch — both definitions are returned unchanged and
the outcome is `skipped`, the same no-message outcome as when no sample
exists; no `MissingField` (or any other) failure is produced. -/
theorem C3_counterexample :
    getField docNoEmb embeddingKey = none
  ∧ analyzeEmbeddings (some docNoEmb) medical_embeddings_index godzilla_index =
      (medical_embeddings_index, godzilla_index, InferenceOutcome.skipped) := by
  exact ⟨by decide, by decide⟩

/-- Claim C3 amended: when the embedding field is absent from the sample the
code silently skips inference (no error of any kind is raised or reported)
and leaves both definitions untouched. -/
theorem C3_amended (sample : Doc) (m g : VectorIndexDef)
    (h : getField sample embeddingKey = none) :
    analyzeEmbeddings (some sample) m g = (m, g, InferenceOutcome.skipped) := by
  simp [analyzeEmbeddings, h]

/-- Claim C3 amended, instantiated. -/
theorem C3_amended_witness :
    analyzeEmbeddings (some docNoEmb) godzilla_index medical_embeddings_index =
      (godzilla_index, medical_embeddings_index, InferenceOutcome.skipped) :=
  C3_amended docNoEmb godzilla_index medical_embeddings_index (by decide)

/-- Claim C4 counterexample: on a sample whose embedding is the native
sequence `[0.1, 0.2, 0.3]` (length 3) the run reports the format as not
recognized and applies nothing — both definitions keep `numDimensions` 384
instead of receiving 3. -/
theorem C4_counterexample :
    getField docNative3 embeddingKey = some (BVal.arr nativeSeq3)
  ∧ nativeSeq3.length = 3
  ∧ analyzeEmbeddings (some docNative3) medical_embeddings_index godzilla_index =
      (medical_embeddings_index, godzilla_index,
        InferenceOutcome.formatNotRecognized)
  ∧ dim0 medical_embeddings_index = some 384
  ∧ dim0 godzilla_index = some 384 :=
  ⟨rfl, rfl, rfl, rfl, rfl⟩

/-- Claim C4 amended: only string-typed embedding values are ever parsed; a
native numeric sequence falls into the `else` branch, the code prints the
format-not-recognized warning, and no dimension is inferred or applied. -/
theorem C4_amended (sample : Doc) (m g : VectorIndexDef) (xs : List Rat)
    (h : getField sample embeddingKey = some (BVal.arr xs)) :
    analyzeEmbeddings (some sample) m g =
      (m, g, InferenceOutcome.formatNotRecognized) := by
  simp [analyzeEmbeddings, h]

/-- Claim C4 amended, instantiated. -/
theorem C4_amended_witness :
    analyzeEmbeddings (some docNative3) godzilla_index medical_embeddings_index =
      (godzilla_index, medical_embeddings_index,
        InferenceOutcome.formatNotRecognized) :=
  C4_amended docNative3 godzilla_index medical_embeddings_index nativeSeq3 (by rfl)

/-- Claim C5 counterexample: a sample whose embedding parses to the empty
sequence yields dimension 0, and 0 is written into both index definitions;
there is no `EmptyEmbedding` guard. -/
theorem C5_counterexample :
    getField docEmptyVec embeddingKey = some (BVal.str emptyVecStr)
  ∧ literal_eval emptyVecStr = Except.ok (PyVal.list [])
  ∧ inferFromStr emptyVecStr = Except.ok 0
  ∧ (analyzeEmbeddings (some docEmptyVec) medical_embeddings_index godzilla_index).2.2 =
      InferenceOutcome.applied 0
  ∧ dim0 (analyzeEmbeddings (some docEmptyVec) medical_embeddings_index godzilla_index).1 =
      some 0
  ∧ dim0 (analyzeEmbeddings (some docEmptyVec) medical_embeddings_index godzilla_index).2.1 =
      some 0 :=
  ⟨by decide, by rfl, by rfl, by decide, by decide, by decide⟩

/-- Claim C5 amended: the inferred dimension is simply the measured length,
zero included — a sample whose embedding string measures to length 0 (such
as one parsing to the empty sequence) overwrites both definitions with
`numDimensions = 0`. -/
theorem C5_amended (sample : Doc) (m g : VectorIndexDef) (s : String)
    (hs : getField sample embeddingKey = some (BVal.str s))
    (he : inferFromStr s = Except.ok 0) :
    analyzeEmbeddings (some sample) m g =
      (setNumDimensions0 m 0, setNumDimensions0 g 0, InferenceOutcome.applied 0) := by
  simp [analyzeEmbeddings, hs, he]

/-- Claim C5 amended, instantiated. -/
theorem C5_amended_witness :
    analyzeEmbeddings (some docEmptyVec) godzilla_index medical_embeddings_index =
      (setNumDimensions0 godzilla_index 0,
        setNumDimensions0 medical_embeddings_index 0, InferenceOutcome.applied 0) :=
  C5_amended docEmptyVec godzilla_index medical_embeddings_index emptyVecStr
    (by decide) (by rfl)

/-- Claim C6 counterexample: a run with no sample at all (both vector
definitions keep the unvalidated placeholder 384) returns an artifact
byte-for-byte identical to a run whose sample genuinely validated dimension
384 — so a placeholder-retaining entry carries no per-entry status or reason
in the artifact; the console outcomes differ but are not part of the
returned mapping. -/
theorem C6_counterexample :
    runOutcome dbNoSample = InferenceOutcome.skipped
  ∧ runOutcome db384 = InferenceOutcome.applied 384
  ∧ parsedLen vec384Str = some 384
  ∧ setup_vector_search_indexes dbNoSample = setup_vector_search_indexes db384 := by
  set_option maxRecDepth 200000 in decide

/-- Claim C6 amended: the artifact always contains exactly the three keys
`medical_embeddings_index`, `godzilla_index`, `drug_search_index` in that
order (the drug entry always being the untouched text index definition), but
an entry that retains the placeholder dimension carries no status or reason
in the artifact — the mapping holds bare index definitions only. -/
theorem C6_amended (db : Db) :
    (setup_vector_search_indexes db).map Prod.fst =
      [medicalEntryKey, godzillaEntryKey, drugEntryKey]
  ∧ List.lookup drugEntryKey (setup_vector_search_indexes db) =
      some (IndexDef.txt drug_search_index) :=
  ⟨rfl, rfl⟩

/-- Claim C7: the analysis phase is idempotent — re-running it on the same
sample starting from its own output changes nothing; overwriting
`numDimensions` twice with the same value equals doing it once; and
re-applying a dimension a definition already has returns the definition
unchanged. -/
theorem C7_idempotence :
    (∀ sample m g,
      analyzeEmbeddings sample
          (analyzeEmbeddings sample m g).1 (analyzeEmbeddings sample m g).2.1 =
        analyzeEmbeddings sample m g)
  ∧ (∀ d n, setNumDimensions0 (setNumDimensions0 d n) n = setNumDimensions0 d n)
  ∧ (∀ d n, dim0 d = some n → setNumDimensions0 d n = d) := by
  refine ⟨?_, setNumDimensions0_idem, ?_⟩
  · intro sample m g
    cases sample with
    | none => rfl
    | some doc =>
      cases hg : getField doc embeddingKey with
      | none => simp [analyzeEmbeddings, hg]
      | some v =>
        cases v with
        | str s =>
          cases hl : inferFromStr s with
          | ok d => simp [analyzeEmbeddings, hg, hl, setNumDimensions0_idem]
          | error e => simp [analyzeEmbeddings, hg, hl]
        | arr xs => simp [analyzeEmbeddings, hg]
        | other => simp [analyzeEmbeddings, hg]
  · intro d n h
    obtain ⟨nm, ty, fs⟩ := d
    cases fs with
    | nil => simp [dim0] at h
    | cons f rest =>
      obtain ⟨ft, fp, fd, fsim⟩ := f
      simp only [dim0] at h
      rw [setNumDimensions0]
      rw [h]

/-- Claim C7, instantiated: re-applying the placeholder 384 to the medical
definition leaves it identical, and a second analysis pass on the dimension-5
sample changes nothing. -/
theorem C7_witness :
    setNumDimensions0 medical_embeddings_index 384 = medical_embeddings_index
  ∧ analyzeEmbeddings (some docMedical5)
        (analyzeEmbeddings (some docMedical5) medical_embeddings_index godzilla_index).1
        (analyzeEmbeddings (some docMedical5) medical_embeddings_index godzilla_index).2.1 =
      analyzeEmbeddings (some docMedical5) medical_embeddings_index godzilla_index :=
  ⟨C7_idempotence.2.2 medical_embeddings_index 384 (by decide),
   C7_idempotence.1 (some docMedical5) medical_embeddings_index godzilla_index⟩

/-- Claim C8: each of the two vector index definitions has exactly one
vector field, that field's similarity metric is cosine, the remaining fields
are exactly one filter field per declared filter path, and no field is of
any other type. -/
theorem C8_vector_index_shape :
    (medical_embeddings_index.fields.filter (fun f => f.type == "vector")).map
        (fun f => f.similarity) = [some cosineStr]
  ∧ (medical_embeddings_index.fields.filter (fun f => f.type == "filter")).map
        (fun f => f.path) = ["medical_specialty", "confidence_score"]
  ∧ medical_embeddings_index.fields.all
      (fun f => f.type == "vector" || f.type == "filter")
  ∧ (godzilla_index.fields.filter (fun f => f.type == "vector")).map
        (fun f => f.similarity) = [some cosineStr]
  ∧ (godzilla_index.fields.filter (fun f => f.type == "filter")).map
        (fun f => f.path) =
      ["medical_specialty", "clinical_relevance_score", "age_groups"]
  ∧ godzilla_index.fields.all
      (fun f => f.type == "vector" || f.type == "filter") := by decide

/-- Claim C9: the text index definition has dynamic mapping disabled and
exactly one field entry per mapping key in declaration order; the entries
without an explicit analyzer are plain string-field specs with no analyzer. -/
theorem C9_text_index_shape :
    drug_search_index.dynamic = false
  ∧ drug_search_index.fields.map Prod.fst =
      ["drug_name", "generic_name", "indication", "age_group", "route"]
  ∧ (drug_search_index.fields.filter (fun e => e.2.analyzer == none)).map
        (fun e => (e.1, e.2)) =
      [("age_group", ({ type := "string", analyzer := none } : TextFieldSpec)),
       ("route", ({ type := "string", analyzer := none } : TextFieldSpec))]
  ∧ (drug_search_index.fields.filter (fun e => !(e.2.analyzer == none))).map
        (fun e => e.2.analyzer) =
      [some "lucene.standard", some "lucene.standard", some "lucene.standard"] := by
  decide

/-- Claim C10: the analysis reads the hardcoded `embedding` key, which
differs from the vector paths declared in the definitions
(`embedding_vector` and `text_embedding`); any sample without an `embedding`
key is silently skipped and both definitions keep the placeholder 384. -/
theorem C10_wrong_embedding_key (sample : Doc)
    (h : getField sample embeddingKey = none) :
    analyzeEmbeddings (some sample) medical_embeddings_index godzilla_index =
      (medical_embeddings_index, godzilla_index, InferenceOutcome.skipped)
  ∧ path0 medical_embeddings_index = some embedding_vectorPath
  ∧ path0 godzilla_index = some text_embeddingPath
  ∧ path0 medical_embeddings_index ≠ some embeddingKey
  ∧ path0 godzilla_index ≠ some embeddingKey
  ∧ dim0 medical_embeddings_index = some 384
  ∧ dim0 godzilla_index = some 384 := by
  refine ⟨?_, by decide, by decide, by decide, by decide, by decide, by decide⟩
  simp [analyzeEmbeddings, h]

/-- Claim C10, instantiated on a sample that stores its vector only under
the declared path `embedding_vector`. -/
theorem C10_witness :
    getField docDeclaredOnly embeddingKey = none
  ∧ analyzeEmbeddings (some docDeclaredOnly) medical_embeddings_index godzilla_index =
      (medical_embeddings_index, godzilla_index, InferenceOutcome.skipped) :=
  ⟨rfl, (C10_wrong_embedding_key docDeclaredOnly (by rfl)).1⟩
